import Mathlib

set_option linter.dupNamespace false
set_option linter.unusedVariables false
set_option maxRecDepth 10000

/-!
# Verification of the tmpl.cgi request pipeline

Shallow embedding of the core of the `tmpl.cgi` repository: the CGI output
framer (`pkg/cgicapture`), the debug/error reporter (`pkg/debug`), the
per-request template resolution (`pkg/config`, `Config.FindTemplate` /
`Config.LoadTemplate`) and the request pipeline (`pkg/server`,
`CGIServer.ServeHTTP`).

External collaborators are modelled as explicit oracle parameters, exactly at
the call boundaries the Go code uses:
* the regular-expression engine (`regexp.Compile` / `Regexp.MatchString`) is a
  parameter `compile : String → Except String Regexp` where a `Regexp` is its
  match predicate;
* the filesystem plus `html/template` parser behind `template.ParseFiles` is a
  parameter `fs : String → Except String HtmlTemplate` mapping a path to the
  outcome of reading and parsing the file at that path;
* execution of a parsed template (`Template.Execute`) is a parameter
  `exec : HtmlTemplate → List String × Option String`, returning the chunks
  the template wrote to its writer before finishing, and `some msg` when it
  failed with error message `msg`;
* rendering of the fixed debug-error page template against a diagnostic
  record (`template.New("debug-error").Parse` followed by `Execute`) is a
  parameter `render : List (String × String) → Except String String`.
-/

/-- A parsed template (`*html/template.Template`); opaque to the pipeline,
identified by the parse outcome the filesystem oracle returns for its file. -/
abbrev HtmlTemplate := String

/-! ## HTTP headers (`net/http.Header`, `net/textproto`) -/

/-- Canonicalisation pass of `textproto.CanonicalMIMEHeaderKey`: first letter
and every letter following a hyphen is upper-cased, all other letters are
lower-cased. (The Go function leaves keys containing invalid token characters
unchanged; the pipeline only ever uses the valid key `"Content-Type"`, so that
branch is not modelled.) The boolean argument says whether the next character
starts a word. -/
def canonChars : Bool → List Char → List Char
  | _, [] => []
  | up, c :: cs =>
    (if up then c.toUpper else c.toLower) :: canonChars (c == '-') cs

/-- Model of `textproto.CanonicalMIMEHeaderKey` for valid keys. -/
def canonicalKey (s : String) : String :=
  ⟨canonChars true s.data⟩

/-- Model of `http.Header`: a finite map from canonical header keys to values. The Go
type is `map[string][]string`; the pipeline only uses `Set` (replace) and
`Get` (first value), so one value per key suffices. -/
abbrev Headers := List (String × String)

/-- Model of `http.Header.Set`: replaces any existing values for the key. -/
def headerSet (h : Headers) (k v : String) : Headers :=
  (h.filter fun p => !(p.1 == canonicalKey k)) ++ [(canonicalKey k, v)]

/-- Model of `http.Header.Get`: the value stored for the canonical key, `""` if none. -/
def headerGet (h : Headers) (k : String) : String :=
  match h.find? (fun p => p.1 == canonicalKey k) with
  | some p => p.2
  | none => ""

def emptyHeaders : Headers := []

/-! ## The real response destination (`net/http.ResponseWriter` semantics)

`status` is the status code committed by the first `WriteHeader` call (a
`Write` before any `WriteHeader` implicitly commits 200, as in `net/http`);
`superfluous` counts later `WriteHeader` calls, which `net/http` ignores
(logging "superfluous response.WriteHeader call"). A response writer with
`superfluous = 0` had exactly one response committed to it. -/
structure RW where
  header : Headers
  status : Option Nat
  body : String
  superfluous : Nat
deriving DecidableEq

/-- A fresh per-request response writer as handed over by the transport. -/
def freshRW : RW := ⟨emptyHeaders, none, "", 0⟩

/-- Model of `w.WriteHeader(code)`: commits the status code; ignored (and counted as
superfluous) if a status was already committed. -/
def RW.writeHeader (w : RW) (code : Nat) : RW :=
  match w.status with
  | some _ => { w with superfluous := w.superfluous + 1 }
  | none => { w with status := some code }

/-- Model of `w.Write(b)`: implicitly commits status 200 if none committed yet, then
appends to the transmitted body. -/
def RW.write (w : RW) (b : String) : RW :=
  let w' : RW :=
    match w.status with
    | none => { w with status := some 200 }
    | some _ => w
  { w' with body := w'.body ++ b }

/-- Model of `w.Header().Set(k, v)`. -/
def RW.setHeader (w : RW) (k v : String) : RW :=
  { w with header := headerSet w.header k v }

/-! ## `pkg/cgicapture` -/

/-- Model of `cgicapture.responseCapture`: implements `http.ResponseWriter` and buffers
the output. `WriteHeader` simply stores the code (last call wins), `Write`
appends to the buffer. -/
structure responseCapture where
  header : Headers
  statusCode : Nat
  buf : String
deriving DecidableEq

/-- Model of `cgicapture.newResponseCapture`: default status 200, empty header map,
empty buffer. -/
def newResponseCapture : responseCapture := ⟨emptyHeaders, 200, ""⟩

def responseCapture.Write (c : responseCapture) (b : String) : responseCapture :=
  { c with buf := c.buf ++ b }

def responseCapture.WriteHeader (c : responseCapture) (code : Nat) : responseCapture :=
  { c with statusCode := code }

def responseCapture.setHeader (c : responseCapture) (k v : String) : responseCapture :=
  { c with header := headerSet c.header k v }

/-- Model of `cgicapture.formatCGIOutput`: a `Content-Type` line (defaulting to
`text/plain` when the capture has none), one blank line, then the buffered
body verbatim, with CRLF line endings. -/
def formatCGIOutput (crw : responseCapture) : String :=
  (if headerGet crw.header "Content-Type" != "" then
    "Content-Type: " ++ headerGet crw.header "Content-Type" ++ "\r\n"
  else
    "Content-Type: text/plain\r\n")
  ++ "\r\n"
  ++ crw.buf

/-! ## `pkg/debug` -/

/-- Model of `strings.ToLower`, restricted to ASCII case mapping (`Char.toLower`). No
character outside ASCII lower-cases to a character of `"true"`, `"yes"` or
`"1"` under Go's full Unicode `strings.ToLower`, so the two functions agree on
every comparison made by `IsDebugEnabled`. -/
def stringToLower (s : String) : String := ⟨s.data.map Char.toLower⟩

/-- Model of `debug.IsDebugEnabled`, with the package-level `debugGloballyEnabled` flag
and the value of the `TMPL_CGI_DEBUG` environment variable passed
explicitly. -/
def IsDebugEnabled (globallyEnabled : Bool) (envValue : String) : Bool :=
  if globallyEnabled then
    true
  else
    let debug := stringToLower envValue
    debug == "true" || debug == "yes" || debug == "1"

/-- The plain-text fallback body of `debug.RenderDebugError`: the
`fmt.Fprintf` preamble followed by one `label: value` line per pair. -/
def fallbackBody (e : String) (messages : List (String × String)) : String :=
  "Debug template error: " ++ e ++ "\n\nMessages:\n"
  ++ String.join (messages.map fun v => v.1 ++ ": " ++ v.2 ++ "\n")

/-- Model of `debug.RenderDebugError`: renders the fixed debug HTML template against
the messages (the parse-and-execute of that engine call is the `render`
oracle); on success sets `Content-Type: text/html; charset=utf-8`, status 500
and writes the page; if the engine fails it falls back to plain text with
`Content-Type: text/plain; charset=utf-8`, status 500. -/
def RenderDebugError (render : List (String × String) → Except String String)
    (w : RW) (messages : List (String × String)) : RW :=
  match render messages with
  | .error e =>
    (((w.setHeader "Content-Type" "text/plain; charset=utf-8").writeHeader 500).write
      (fallbackBody e messages))
  | .ok page =>
    (((w.setHeader "Content-Type" "text/html; charset=utf-8").writeHeader 500).write page)

/-- The fixed generic production error page written by `debug.WriteDebugError`
when debug mode is disabled. -/
def genericErrorBody : String :=
  "<!DOCTYPE HTML PUBLIC \"-//IETF//DTD HTML 2.0//EN\">\n<html><head>\n<title>500 Server Error</title>\n</head><body>\n<h1>Server Error</h1>\n<p>The server encountered an error processing this request.</p>\n</body></html>"

/-- Model of `debug.WriteDebugError`: detailed page when debug mode is enabled,
otherwise the fixed generic page with `Content-Type: text/html;
charset=utf-8` and status 500. -/
def WriteDebugError (globallyEnabled : Bool) (envValue : String)
    (render : List (String × String) → Except String String)
    (w : RW) (messages : List (String × String)) : RW :=
  if IsDebugEnabled globallyEnabled envValue then
    RenderDebugError render w messages
  else
    (((w.setHeader "Content-Type" "text/html; charset=utf-8").writeHeader 500).write
      genericErrorBody)

/-! ## `pkg/config` -/

/-- A compiled regular expression (`*regexp.Regexp`), abstracted to its
`MatchString` predicate; compilation (`regexp.Compile`) is an oracle
parameter `compile : String → Except String Regexp` wherever it is called. -/
structure Regexp where
  MatchString : String → Bool

/-- Model of `config.Template`: one pattern/template rule of the configuration. -/
structure Template where
  Pattern : String
  Template : String
  TestURI : String
deriving DecidableEq

/-- Model of `config.Config` (the untyped `Data` blob is passed through opaquely to the
template engine and plays no role in resolution, so it is omitted). -/
structure Config where
  ConfigFilePath : String
  DefaultTemplate : String
  Templates : List Template
deriving DecidableEq

/-- Model of `filepath.IsAbs` on Unix: the path is non-empty and starts with a
slash. -/
def filepathIsAbs (p : String) : Bool :=
  match p.data with
  | [] => false
  | c :: _ => c == '/'

/-- The characters before the last `'/'`, if the list contains one. -/
def beforeLastSlash : List Char → Option (List Char)
  | [] => none
  | c :: cs =>
    match beforeLastSlash cs with
    | some tail => some (c :: tail)
    | none => if c == '/' then some [] else none

/-- Model of `path.Dir`: everything before the final slash; `"."` when the path has no
slash, `"/"` for a file directly under the root. (Go additionally `Clean`s the
result; the claims use the result only as an uninterpreted key into the
filesystem oracle, so the cleaning pass is not modelled.) -/
def pathDir (p : String) : String :=
  match beforeLastSlash p.data with
  | none => "."
  | some [] => "/"
  | some l => ⟨l⟩

/-- Model of `filepath.Join` on two elements: empty elements are ignored, the rest are
joined with a slash (Go additionally `Clean`s the result, not modelled for the
same reason as in `pathDir`). -/
def filepathJoin (a b : String) : String :=
  if b == "" then a else if a == "" then b else a ++ "/" ++ b

/-- Model of `Config.LoadTemplate`: resolves a relative filename against the directory
of the config file, then reads and parses it (`template.New(...).ParseFiles`,
the `fs` oracle), wrapping any failure as `failed to parse: ...`. -/
def Config.LoadTemplate (fs : String → Except String HtmlTemplate)
    (c : Config) (filename : String) : Except String HtmlTemplate :=
  let filename :=
    if !(filepathIsAbs filename) then
      filepathJoin (pathDir c.ConfigFilePath) filename
    else filename
  match fs filename with
  | .ok tmpl => .ok tmpl
  | .error e => .error ("failed to parse: " ++ e)

/-- The `for _, t := range c.Templates` loop of `Config.FindTemplate`: compile
each rule's pattern in declaration order (failing with `compiling regexp: ...`
on a pattern that does not compile), load the first rule whose pattern matches
the URI, and fall through to the default template after the last rule. -/
def findTemplateLoop (fs : String → Except String HtmlTemplate)
    (compile : String → Except String Regexp) (c : Config) (uri : String) :
    List Template → Except String HtmlTemplate
  | [] => c.LoadTemplate fs c.DefaultTemplate
  | t :: rest =>
    match compile t.Pattern with
    | .error e => .error ("compiling regexp: " ++ e)
    | .ok re =>
      if re.MatchString uri then c.LoadTemplate fs t.Template
      else findTemplateLoop fs compile c uri rest

/-- Model of `Config.FindTemplate`: per-request template resolution. -/
def Config.FindTemplate (fs : String → Except String HtmlTemplate)
    (compile : String → Except String Regexp) (c : Config) (uri : String) :
    Except String HtmlTemplate :=
  findTemplateLoop fs compile c uri c.Templates

/-! ## `pkg/server` (per-request-resolution implementation) -/

/-- Model of `server.CGIServer`. -/
structure CGIServer where
  config : Config
deriving DecidableEq

/-- Model of `server.New`: stores a copy of the configuration; it performs no
validation and cannot fail. -/
def New (cfg : Config) : Except String CGIServer := .ok ⟨cfg⟩

/-- The fields of `*http.Request` that `getRequestURI` reads. -/
structure Request where
  RequestURI : String
  URLPath : String
deriving DecidableEq

/-- Model of `server.getRequestURI`: the raw request URI, falling back to the decoded
URL path when the transport left it empty. -/
def getRequestURI (r : Request) : String :=
  if r.RequestURI == "" then r.URLPath else r.RequestURI

/-- Model of `CGIServer.ServeHTTP`: resolve a template for the request URI (on failure
report through `WriteDebugError` and return), execute it into a fresh
`bytes.Buffer` (the `exec` oracle returns the chunks written and `some msg` on
failure; on failure the buffer is discarded and `WriteDebugError` commits the
error page instead), and on success set `Content-Type` and write the whole
buffer to the real destination. -/
def CGIServer.ServeHTTP (fs : String → Except String HtmlTemplate)
    (compile : String → Except String Regexp)
    (exec : HtmlTemplate → List String × Option String)
    (render : List (String × String) → Except String String)
    (globallyEnabled : Bool) (envValue : String)
    (s : CGIServer) (w : RW) (r : Request) : RW :=
  let requestURI := getRequestURI r
  match s.config.FindTemplate fs compile requestURI with
  | .error e =>
    WriteDebugError globallyEnabled envValue render w
      [("Request URI", requestURI), ("Error loading template", e)]
  | .ok tmpl =>
    match exec tmpl with
    | (_, some e) =>
      WriteDebugError globallyEnabled envValue render w
        [("Request URI", requestURI), ("Error executing template", e)]
    | (chunks, none) =>
      (w.setHeader "Content-Type" "text/html; charset=utf-8").write (String.join chunks)

/-! ## Helper lemmas and containment predicate -/

/-- The proposition that `pat` occurs as a contiguous substring of `s`. -/
def strContains (s pat : String) : Prop := pat.toList <:+: s.toList

instance (s pat : String) : Decidable (strContains s pat) :=
  inferInstanceAs (Decidable (pat.toList <:+: s.toList))

/-- Reading back a header immediately after `Set` yields the value set. -/
theorem headerGet_headerSet_same (h : Headers) (k v : String) :
    headerGet (headerSet h k v) k = v := by
  unfold headerGet headerSet
  rw [List.find?_append]
  have hnone : (h.filter fun p => !(p.1 == canonicalKey k)).find?
      (fun p => p.1 == canonicalKey k) = none := by
    rw [List.find?_eq_none]
    intro x hx
    have hmem := List.of_mem_filter hx
    simpa using hmem
  rw [hnone]
  simp

/-- All three `WriteDebugError` paths commit exactly one response with status
500 on a fresh writer. -/
theorem WriteDebugError_fresh (g : Bool) (env : String)
    (render : List (String × String) → Except String String)
    (msgs : List (String × String)) :
    (WriteDebugError g env render freshRW msgs).status = some 500 ∧
    (WriteDebugError g env render freshRW msgs).superfluous = 0 := by
  unfold WriteDebugError RenderDebugError
  by_cases hd : IsDebugEnabled g env
  · simp only [hd, if_true]
    cases render msgs <;>
      simp [RW.setHeader, RW.writeHeader, RW.write, freshRW]
  · simp only [hd, if_false]
    simp [RW.setHeader, RW.writeHeader, RW.write, freshRW]

/-- Skipping a prefix of rules none of which matches. -/
theorem findTemplateLoop_skip (fs : String → Except String HtmlTemplate)
    (compile : String → Except String Regexp) (c : Config) (uri : String)
    (pre rest : List Template)
    (hpre : ∀ t' ∈ pre, ∃ r, compile t'.Pattern = .ok r ∧ r.MatchString uri = false) :
    findTemplateLoop fs compile c uri (pre ++ rest)
      = findTemplateLoop fs compile c uri rest := by
  induction pre with
  | nil => rfl
  | cons p ps ih =>
    obtain ⟨r, hr, hm⟩ := hpre p (by simp)
    simp only [List.cons_append, findTemplateLoop, hr, hm, if_false]
    exact ih fun t ht => hpre t (by simp [ht])

/-- C7: the CGI framer's output is `"Content-Type: " + C + "\r\n" + "\r\n" +
body`, where `C` is the capture's Content-Type header value when one is set
(non-empty) and `"text/plain"` otherwise, and the body is the buffered bytes
verbatim; in particular a capture with Content-Type `text/html` and body
`<p>x</p>` frames to exactly `"Content-Type: text/html\r\n\r\n<p>x</p>"`,
and a capture with no Content-Type frames with a `text/plain` line. -/
theorem c7_cgi_framing :
    (∀ crw : responseCapture,
      formatCGIOutput crw =
        "Content-Type: "
          ++ (if headerGet crw.header "Content-Type" = "" then "text/plain"
              else headerGet crw.header "Content-Type")
          ++ "\r\n" ++ "\r\n" ++ crw.buf)
    ∧ formatCGIOutput ((newResponseCapture.setHeader "Content-Type" "text/html").Write "<p>x</p>")
        = "Content-Type: text/html" ++ "\r\n" ++ "\r\n" ++ "<p>x</p>"
    ∧ formatCGIOutput (newResponseCapture.Write "hello")
        = "Content-Type: text/plain" ++ "\r\n" ++ "\r\n" ++ "hello" := by
  refine ⟨fun crw => ?_, by rfl, by rfl⟩
  unfold formatCGIOutput
  by_cases h : headerGet crw.header "Content-Type" = ""
  · simp [h]
  · simp [h]

/-- C8: `IsDebugEnabled` is true exactly when the explicit flag is set or the
lower-cased environment value is one of `true`, `yes`, `1`; the explicit flag
wins regardless of the environment value, and with the flag off the values
`false`, `no`, `0`, `""` and any string not lower-casing into the truthy set
yield false, while `true`, `yes`, `1`, `TRUE`, `YES` yield true. -/
theorem c8_debug_flag :
    (∀ g env, IsDebugEnabled g env =
        (g || (stringToLower env == "true" || stringToLower env == "yes"
               || stringToLower env == "1")))
    ∧ (∀ env, IsDebugEnabled true env = true)
    ∧ (∀ env, stringToLower env ≠ "true" → stringToLower env ≠ "yes" →
        stringToLower env ≠ "1" → IsDebugEnabled false env = false)
    ∧ (IsDebugEnabled false "true" = true ∧ IsDebugEnabled false "yes" = true
        ∧ IsDebugEnabled false "1" = true ∧ IsDebugEnabled false "TRUE" = true
        ∧ IsDebugEnabled false "YES" = true)
    ∧ (IsDebugEnabled false "false" = false ∧ IsDebugEnabled false "no" = false
        ∧ IsDebugEnabled false "0" = false ∧ IsDebugEnabled false "" = false) := by
  refine ⟨fun g env => ?_, fun env => rfl, fun env h1 h2 h3 => ?_, ?_, ?_⟩
  · cases g <;> simp [IsDebugEnabled]
  · simp [IsDebugEnabled, h1, h2, h3]
  · exact ⟨by decide, by decide, by decide, by decide, by decide⟩
  · exact ⟨by decide, by decide, by decide, by decide⟩

/-- C8 witness: a concrete non-truthy string with the flag off. -/
theorem c8_debug_flag_witness :
    stringToLower "random" ≠ "true" ∧ IsDebugEnabled false "random" = false :=
  ⟨by decide, c8_debug_flag.2.2.1 "random" (by decide) (by decide) (by decide)⟩

/-- When no rule's pattern matches (and all compile), resolution falls through
to loading the default template. -/
theorem findTemplate_no_match (fs : String → Except String HtmlTemplate)
    (compile : String → Except String Regexp) (c : Config) (uri : String)
    (hall : ∀ t' ∈ c.Templates, ∃ r, compile t'.Pattern = .ok r ∧ r.MatchString uri = false) :
    c.FindTemplate fs compile uri = c.LoadTemplate fs c.DefaultTemplate := by
  unfold Config.FindTemplate
  have hskip := findTemplateLoop_skip fs compile c uri c.Templates [] hall
  rw [List.append_nil] at hskip
  rw [hskip]
  rfl

/-- Loading the empty filename resolves to the config-file directory itself,
which is not a parsable template file. -/
theorem loadTemplate_empty (fs : String → Except String HtmlTemplate)
    (c : Config) (e : String) (hfs : fs (pathDir c.ConfigFilePath) = .error e) :
    c.LoadTemplate fs "" = .error ("failed to parse: " ++ e) := by
  unfold Config.LoadTemplate
  have habs : filepathIsAbs "" = false := by decide
  have hjoin : filepathJoin (pathDir c.ConfigFilePath) "" = pathDir c.ConfigFilePath := by
    simp [filepathJoin]
  simp only [habs, Bool.not_false, if_true, hjoin, hfs]

/-- A filesystem oracle with no readable template files at all. -/
def fsNone : String → Except String HtmlTemplate :=
  fun p => .error ("open " ++ p ++ ": no such file or directory")

/-- A regular-expression oracle for witnesses: every pattern compiles, and it
matches exactly the string equal to the pattern. -/
def compileEq : String → Except String Regexp := fun p => .ok ⟨fun s => s == p⟩

/-- C6: first match wins. For the per-request resolution (`Config.FindTemplate`),
if every rule before rule `t` compiles and fails to match while `t`'s pattern
matches, the result is exactly the load of `t`'s template reference, whatever
the rules after `t` are. -/
theorem c6_first_match_wins (fs : String → Except String HtmlTemplate)
    (compile : String → Except String Regexp) (c : Config) (uri : String)
    (pre post : List Template) (t : Template) (r : Regexp)
    (hT : c.Templates = pre ++ t :: post)
    (hpre : ∀ t' ∈ pre, ∃ r', compile t'.Pattern = .ok r' ∧ r'.MatchString uri = false)
    (hc : compile t.Pattern = .ok r) (hm : r.MatchString uri = true) :
    c.FindTemplate fs compile uri = c.LoadTemplate fs t.Template := by
  unfold Config.FindTemplate
  rw [hT, findTemplateLoop_skip fs compile c uri pre _ hpre]
  simp [findTemplateLoop, hc, hm]

/-- A three-rule route table where the second and third rules both match the
request `/b`. -/
def cfgThreeRules : Config :=
  ⟨"/srv/config.yaml", "default.html",
    [⟨"/a", "a.html", ""⟩, ⟨"/b", "b.html", ""⟩, ⟨"/b", "c.html", ""⟩]⟩

/-- C6 witness: with two matching rules, resolution loads the earlier one. -/
theorem c6_first_match_wins_witness :
    cfgThreeRules.Templates
      = [⟨"/a", "a.html", ""⟩] ++ (⟨"/b", "b.html", ""⟩ : Template) :: [⟨"/b", "c.html", ""⟩]
    ∧ cfgThreeRules.FindTemplate fsNone compileEq "/b"
      = cfgThreeRules.LoadTemplate fsNone "b.html" :=
  ⟨rfl,
    c6_first_match_wins fsNone compileEq cfgThreeRules "/b"
      [⟨"/a", "a.html", ""⟩] [⟨"/b", "c.html", ""⟩] ⟨"/b", "b.html", ""⟩
      ⟨fun s => s == "/b"⟩ rfl
      (by
        intro t' ht'
        simp only [List.mem_singleton] at ht'
        subst ht'
        exact ⟨⟨fun s => s == "/a"⟩, rfl, by decide⟩)
      rfl (by decide)⟩

/-- C9: when every rule compiles and fails to match and a default template is
configured, resolution returns (the load of) the default template's
reference. -/
theorem c9_default_fallback (fs : String → Except String HtmlTemplate)
    (compile : String → Except String Regexp) (c : Config) (uri : String)
    (hall : ∀ t' ∈ c.Templates, ∃ r, compile t'.Pattern = .ok r ∧ r.MatchString uri = false)
    (hdef : c.DefaultTemplate ≠ "") :
    c.FindTemplate fs compile uri = c.LoadTemplate fs c.DefaultTemplate :=
  findTemplate_no_match fs compile c uri hall

/-- C9 witness: a one-rule table whose rule does not match `/home`. -/
theorem c9_default_fallback_witness :
    (⟨"/srv/config.yaml", "default.html", [⟨"/a", "a.html", ""⟩]⟩ : Config).FindTemplate
        fsNone compileEq "/home"
      = (⟨"/srv/config.yaml", "default.html", [⟨"/a", "a.html", ""⟩]⟩ : Config).LoadTemplate
        fsNone "default.html" :=
  c9_default_fallback fsNone compileEq _ "/home"
    (by
      intro t' ht'
      simp only [List.mem_singleton] at ht'
      subst ht'
      exact ⟨⟨fun s => s == "/a"⟩, rfl, by decide⟩)
    (by decide)

/-- C10: with an empty `DefaultTemplate` and no matching pattern,
`Config.FindTemplate` unconditionally attempts to load the file named by
joining the config-file directory with the empty filename — the directory
itself, which never parses as a template — so it always returns an error and
never a template; there is no distinct no-template-configured signal. -/
theorem c10_empty_default_error (fs : String → Except String HtmlTemplate)
    (compile : String → Except String Regexp) (c : Config) (uri : String) (e : String)
    (hdef : c.DefaultTemplate = "")
    (hall : ∀ t' ∈ c.Templates, ∃ r, compile t'.Pattern = .ok r ∧ r.MatchString uri = false)
    (hfs : fs (pathDir c.ConfigFilePath) = .error e) :
    c.FindTemplate fs compile uri = .error ("failed to parse: " ++ e) := by
  rw [findTemplate_no_match fs compile c uri hall, hdef]
  exact loadTemplate_empty fs c e hfs

/-- C10 witness: empty route table, empty default, any path. -/
theorem c10_empty_default_error_witness :
    (⟨"/srv/config.yaml", "", []⟩ : Config).FindTemplate fsNone compileEq "/anything"
      = .error ("failed to parse: " ++ "open /srv: no such file or directory") :=
  c10_empty_default_error fsNone compileEq ⟨"/srv/config.yaml", "", []⟩ "/anything"
    "open /srv: no such file or directory" rfl
    (fun t' ht' => absurd ht' (List.not_mem_nil t'))
    rfl

/-- The configuration with a single rule whose pattern does not compile as a
regular expression. -/
def badPatternCfg : Config :=
  ⟨"/srv/config.yaml", "default.html", [⟨"[", "api.html", ""⟩]⟩

/-- A regular-expression oracle under which `"["` fails to compile (as it does
under Go's `regexp.Compile`) and every other pattern matches nothing. -/
def compileBad : String → Except String Regexp := fun p =>
  if p == "[" then .error "error parsing regexp: missing closing ]: `[`"
  else .ok ⟨fun _ => false⟩

/-- C3 counterexample: for a configuration containing the non-compiling
pattern `"["`, server construction (`New`) succeeds and returns a usable
server — it performs no pattern compilation at all — and the compilation
failure is instead surfaced by per-request resolution. -/
theorem c3_invalid_pattern_counterexample :
    New badPatternCfg = .ok ⟨badPatternCfg⟩
    ∧ badPatternCfg.FindTemplate fsNone compileBad "/api/test"
      = .error ("compiling regexp: " ++ "error parsing regexp: missing closing ]: `[`") :=
  ⟨rfl, rfl⟩

/-- C3 amended: `New` never returns an error (it stores the configuration
verbatim, validating nothing); a pattern that fails to compile surfaces
per-request, as a `compiling regexp` error from `Config.FindTemplate`,
provided no earlier rule matched first. -/
theorem c3_invalid_pattern_amended :
    (∀ cfg : Config, New cfg = .ok ⟨cfg⟩)
    ∧ ∀ (fs : String → Except String HtmlTemplate)
        (compile : String → Except String Regexp) (cfg : Config) (uri : String)
        (pre post : List Template) (t : Template) (e : String),
        cfg.Templates = pre ++ t :: post →
        (∀ t' ∈ pre, ∃ r, compile t'.Pattern = .ok r ∧ r.MatchString uri = false) →
        compile t.Pattern = .error e →
        cfg.FindTemplate fs compile uri = .error ("compiling regexp: " ++ e) := by
  refine ⟨fun cfg => rfl, ?_⟩
  intro fs compile cfg uri pre post t e hT hpre hc
  unfold Config.FindTemplate
  rw [hT, findTemplateLoop_skip fs compile cfg uri pre _ hpre]
  simp [findTemplateLoop, hc]

/-- C3 amended witness: the bad-pattern configuration at a concrete request. -/
theorem c3_invalid_pattern_amended_witness :
    badPatternCfg.Templates = [] ++ (⟨"[", "api.html", ""⟩ : Template) :: []
    ∧ badPatternCfg.FindTemplate fsNone compileBad "/api/test"
      = .error ("compiling regexp: " ++ "error parsing regexp: missing closing ]: `[`") :=
  ⟨rfl,
    c3_invalid_pattern_amended.2 fsNone compileBad badPatternCfg "/api/test" [] []
      ⟨"[", "api.html", ""⟩ "error parsing regexp: missing closing ]: `[`" rfl
      (fun t' ht' => absurd ht' (List.not_mem_nil t')) rfl⟩

/-- C4 counterexample: when the debug-error template engine call fails, the
plain-text fallback path of `RenderDebugError` sets `Content-Type:
text/plain; charset=utf-8` — not `text/html; charset=utf-8` — on the target
sink (it does set status 500). -/
theorem c4_reporter_headers_counterexample :
    headerGet (RenderDebugError (fun _ => .error "template: debug-error: unexpected EOF")
        freshRW [("Error", "boom")]).header "Content-Type"
      = "text/plain; charset=utf-8"
    ∧ ("text/plain; charset=utf-8" : String) ≠ "text/html; charset=utf-8"
    ∧ (RenderDebugError (fun _ => .error "template: debug-error: unexpected EOF")
        freshRW [("Error", "boom")]).status = some 500 :=
  ⟨rfl, by decide, rfl⟩

/-- C4 amended: every rendering path of the error reporter sets status 500 on
the target sink; the debug HTML page and the generic production page set
`Content-Type: text/html; charset=utf-8`, while the plain-text fallback (taken
when the debug template engine call fails) sets `Content-Type: text/plain;
charset=utf-8`. -/
theorem c4_reporter_headers_amended
    (render : List (String × String) → Except String String)
    (msgs : List (String × String)) (w : RW) (hw : w.status = none) :
    ((RenderDebugError render w msgs).status = some 500
      ∧ headerGet (RenderDebugError render w msgs).header "Content-Type"
          = (match render msgs with
             | .ok _ => "text/html; charset=utf-8"
             | .error _ => "text/plain; charset=utf-8"))
    ∧ (∀ g env, IsDebugEnabled g env = false →
        (WriteDebugError g env render w msgs).status = some 500
        ∧ headerGet (WriteDebugError g env render w msgs).header "Content-Type"
            = "text/html; charset=utf-8")
    ∧ (∀ g env, IsDebugEnabled g env = true →
        WriteDebugError g env render w msgs = RenderDebugError render w msgs) := by
  refine ⟨?_, fun g env hd => ?_, fun g env hd => ?_⟩
  · unfold RenderDebugError
    cases hr : render msgs <;>
      simp [RW.setHeader, RW.writeHeader, RW.write, hw, headerGet_headerSet_same]
  · unfold WriteDebugError
    rw [hd]
    simp [RW.setHeader, RW.writeHeader, RW.write, hw, headerGet_headerSet_same]
  · unfold WriteDebugError
    rw [hd]
    simp

/-- C4 amended witness: the debug path on a fresh writer. -/
theorem c4_reporter_headers_amended_witness :
    freshRW.status = none
    ∧ (RenderDebugError (fun _ => .ok "<html>dbg</html>") freshRW
        [("Error", "boom")]).status = some 500 :=
  ⟨rfl,
    (c4_reporter_headers_amended (fun _ => .ok "<html>dbg</html>")
      [("Error", "boom")] freshRW rfl).1.1⟩

/-- The empty string is a left identity of string append. -/
theorem string_empty_append (s : String) : "" ++ s = s := by
  cases s
  rfl

/-- A filesystem oracle with exactly one template file, the default template
of a config file in `/srv`. -/
def fsOne : String → Except String HtmlTemplate := fun p =>
  if p == "/srv/default.html" then .ok "default-template"
  else .error ("open " ++ p ++ ": no such file or directory")

/-- C1: on the buffered pipeline, a failing template execution commits exactly
the error page produced by `WriteDebugError` on the untouched writer — none of
the chunks the template produced before failing reach the destination, and the
committed response does not depend on them at all — with status 500 committed
exactly once; a successful execution commits exactly the fully rendered
buffer, with status 200 committed exactly once. Never both, never a
mixture. -/
theorem c1_atomic_commit (fs : String → Except String HtmlTemplate)
    (compile : String → Except String Regexp)
    (exec : HtmlTemplate → List String × Option String)
    (render : List (String × String) → Except String String)
    (g : Bool) (env : String) (s : CGIServer) (r : Request) (t : HtmlTemplate)
    (hfind : s.config.FindTemplate fs compile (getRequestURI r) = .ok t) :
    (∀ chunks e, exec t = (chunks, some e) →
      s.ServeHTTP fs compile exec render g env freshRW r
        = WriteDebugError g env render freshRW
            [("Request URI", getRequestURI r), ("Error executing template", e)]
      ∧ (s.ServeHTTP fs compile exec render g env freshRW r).status = some 500
      ∧ (s.ServeHTTP fs compile exec render g env freshRW r).superfluous = 0
      ∧ ∀ (exec' : HtmlTemplate → List String × Option String) chunks',
          exec' t = (chunks', some e) →
          s.ServeHTTP fs compile exec' render g env freshRW r
            = s.ServeHTTP fs compile exec render g env freshRW r)
    ∧ (∀ chunks, exec t = (chunks, none) →
      (s.ServeHTTP fs compile exec render g env freshRW r).body = String.join chunks
      ∧ (s.ServeHTTP fs compile exec render g env freshRW r).status = some 200
      ∧ (s.ServeHTTP fs compile exec render g env freshRW r).superfluous = 0) := by
  have unf : ∀ (ex : HtmlTemplate → List String × Option String),
      s.ServeHTTP fs compile ex render g env freshRW r
        = (match ex t with
           | (_, some e) =>
             WriteDebugError g env render freshRW
               [("Request URI", getRequestURI r), ("Error executing template", e)]
           | (chunks, none) =>
             (freshRW.setHeader "Content-Type" "text/html; charset=utf-8").write
               (String.join chunks)) := by
    intro ex
    simp only [CGIServer.ServeHTTP, hfind]
  constructor
  · intro chunks e hex
    have hthis : s.ServeHTTP fs compile exec render g env freshRW r
        = WriteDebugError g env render freshRW
            [("Request URI", getRequestURI r), ("Error executing template", e)] := by
      rw [unf exec, hex]
    refine ⟨hthis, ?_, ?_, ?_⟩
    · rw [hthis]
      exact (WriteDebugError_fresh g env render _).1
    · rw [hthis]
      exact (WriteDebugError_fresh g env render _).2
    · intro exec' chunks' hex'
      rw [unf exec', hex', hthis]
  · intro chunks hex
    have hthis : s.ServeHTTP fs compile exec render g env freshRW r
        = (freshRW.setHeader "Content-Type" "text/html; charset=utf-8").write
            (String.join chunks) := by
      rw [unf exec, hex]
    rw [hthis]
    refine ⟨?_, rfl, rfl⟩
    show ("" ++ String.join chunks) = String.join chunks
    exact string_empty_append (String.join chunks)

/-- C1 witness: a concrete failing execution on a one-template config. -/
theorem c1_atomic_commit_witness :
    (⟨⟨"/srv/config.yaml", "default.html", []⟩⟩ : CGIServer).config.FindTemplate fsOne compileEq
        (getRequestURI ⟨"/x", "/x"⟩) = .ok "default-template"
    ∧ ((⟨⟨"/srv/config.yaml", "default.html", []⟩⟩ : CGIServer).ServeHTTP fsOne compileEq
        (fun _ => (["<p>par", "tial</p>"], some "field not found")) (fun _ => .ok "dbg")
        false "" freshRW ⟨"/x", "/x"⟩).status = some 500 :=
  ⟨by rfl,
    ((c1_atomic_commit fsOne compileEq
        (fun _ => (["<p>par", "tial</p>"], some "field not found")) (fun _ => .ok "dbg")
        false "" ⟨⟨"/srv/config.yaml", "default.html", []⟩⟩ ⟨"/x", "/x"⟩
        "default-template" (by rfl)).1
      ["<p>par", "tial</p>"] "field not found" rfl).2.1⟩

/-- C5: with debug mode disabled, the response committed for a failing
template execution has status 500, `Content-Type: text/html; charset=utf-8`,
and the fixed generic body containing `Server Error`; two runs whose
executions fail with arbitrary different chunks, messages and debug-template
renderers commit identical responses, so nothing about the diagnostics is
derivable from the output. -/
theorem c5_production_opacity (fs : String → Except String HtmlTemplate)
    (compile : String → Except String Regexp)
    (exec1 exec2 : HtmlTemplate → List String × Option String)
    (render1 render2 : List (String × String) → Except String String)
    (g : Bool) (env : String) (s : CGIServer) (r : Request) (t : HtmlTemplate)
    (chunks1 chunks2 : List String) (e1 e2 : String)
    (hdebug : IsDebugEnabled g env = false)
    (hfind : s.config.FindTemplate fs compile (getRequestURI r) = .ok t)
    (h1 : exec1 t = (chunks1, some e1)) (h2 : exec2 t = (chunks2, some e2)) :
    (s.ServeHTTP fs compile exec1 render1 g env freshRW r).status = some 500
    ∧ headerGet (s.ServeHTTP fs compile exec1 render1 g env freshRW r).header "Content-Type"
        = "text/html; charset=utf-8"
    ∧ (s.ServeHTTP fs compile exec1 render1 g env freshRW r).body = genericErrorBody
    ∧ strContains (s.ServeHTTP fs compile exec1 render1 g env freshRW r).body "Server Error"
    ∧ s.ServeHTTP fs compile exec1 render1 g env freshRW r
        = s.ServeHTTP fs compile exec2 render2 g env freshRW r := by
  have key : ∀ (ex : HtmlTemplate → List String × Option String)
      (rd : List (String × String) → Except String String) (chunks : List String) (e : String),
      ex t = (chunks, some e) →
      s.ServeHTTP fs compile ex rd g env freshRW r
        = ((freshRW.setHeader "Content-Type" "text/html; charset=utf-8").writeHeader 500).write
            genericErrorBody := by
    intro ex rd chunks e hex
    simp only [CGIServer.ServeHTTP, hfind]
    rw [hex]
    unfold WriteDebugError
    rw [hdebug]
    simp
  have k1 := key exec1 render1 chunks1 e1 h1
  have k2 := key exec2 render2 chunks2 e2 h2
  refine ⟨?_, ?_, ?_, ?_, k1.trans k2.symm⟩
  · rw [k1]
    rfl
  · rw [k1]
    rfl
  · rw [k1]
    rfl
  · rw [k1]
    decide

/-- C5 witness: two concrete failing runs on a one-template config. -/
theorem c5_production_opacity_witness :
    IsDebugEnabled false "" = false
    ∧ ((⟨⟨"/srv/config.yaml", "default.html", []⟩⟩ : CGIServer).ServeHTTP fsOne compileEq
        (fun _ => (["partial"], some "field not found")) (fun _ => .ok "dbg")
        false "" freshRW ⟨"/x", "/x"⟩).status = some 500 :=
  ⟨rfl,
    (c5_production_opacity fsOne compileEq
      (fun _ => (["partial"], some "field not found")) (fun _ => ([], some "other"))
      (fun _ => .ok "dbg") (fun _ => .error "dbg boom") false ""
      ⟨⟨"/srv/config.yaml", "default.html", []⟩⟩ ⟨"/x", "/x"⟩ "default-template"
      ["partial"] [] "field not found" "other" rfl (by rfl) rfl rfl).1⟩

/-- The configuration with no rules and no default template. -/
def c2cfg : Config := ⟨"/srv/config.yaml", "", []⟩

/-- C2 counterexample: with no matching pattern and no default template (and
debug disabled), the per-request pipeline commits a 500 generic error page
through the error reporter, not a plain 404 "not found" response. -/
theorem c2_no_default_counterexample :
    ((⟨c2cfg⟩ : CGIServer).ServeHTTP fsNone compileEq (fun _ => ([], none)) (fun _ => .ok "")
        false "" freshRW ⟨"/anything", "/anything"⟩).status = some 500
    ∧ ¬ (((⟨c2cfg⟩ : CGIServer).ServeHTTP fsNone compileEq (fun _ => ([], none)) (fun _ => .ok "")
        false "" freshRW ⟨"/anything", "/anything"⟩).status = some 404)
    ∧ ((⟨c2cfg⟩ : CGIServer).ServeHTTP fsNone compileEq (fun _ => ([], none)) (fun _ => .ok "")
        false "" freshRW ⟨"/anything", "/anything"⟩).body = genericErrorBody :=
  ⟨rfl, by decide, rfl⟩

/-- C2 amended: when no pattern matches and no default template is configured,
`Config.FindTemplate` returns a template-load error (there is no distinct
not-found signal), and `ServeHTTP` surfaces it through the error reporter
(`WriteDebugError`), committing — with debug disabled — the generic 500 error
page, never a 404 response. -/
theorem c2_no_default_amended (fs : String → Except String HtmlTemplate)
    (compile : String → Except String Regexp)
    (exec : HtmlTemplate → List String × Option String)
    (render : List (String × String) → Except String String)
    (g : Bool) (env : String) (s : CGIServer) (r : Request) (e : String)
    (hdef : s.config.DefaultTemplate = "")
    (hall : ∀ t' ∈ s.config.Templates,
      ∃ rr, compile t'.Pattern = .ok rr ∧ rr.MatchString (getRequestURI r) = false)
    (hfs : fs (pathDir s.config.ConfigFilePath) = .error e)
    (hdebug : IsDebugEnabled g env = false) :
    s.ServeHTTP fs compile exec render g env freshRW r
      = ((freshRW.setHeader "Content-Type" "text/html; charset=utf-8").writeHeader 500).write
          genericErrorBody
    ∧ (s.ServeHTTP fs compile exec render g env freshRW r).status = some 500
    ∧ ¬ ((s.ServeHTTP fs compile exec render g env freshRW r).status = some 404)
    ∧ (s.ServeHTTP fs compile exec render g env freshRW r).body = genericErrorBody := by
  have hfind : s.config.FindTemplate fs compile (getRequestURI r)
      = .error ("failed to parse: " ++ e) := by
    rw [findTemplate_no_match fs compile s.config (getRequestURI r) hall, hdef]
    exact loadTemplate_empty fs s.config e hfs
  have key : s.ServeHTTP fs compile exec render g env freshRW r
      = ((freshRW.setHeader "Content-Type" "text/html; charset=utf-8").writeHeader 500).write
          genericErrorBody := by
    simp only [CGIServer.ServeHTTP, hfind]
    unfold WriteDebugError
    rw [hdebug]
    simp
  refine ⟨key, ?_, ?_, ?_⟩
  · rw [key]
    rfl
  · rw [key]
    decide
  · rw [key]
    rfl

/-- C2 amended witness: the empty config at a concrete request. -/
theorem c2_no_default_amended_witness :
    (⟨c2cfg⟩ : CGIServer).config.DefaultTemplate = ""
    ∧ ((⟨c2cfg⟩ : CGIServer).ServeHTTP fsNone compileEq (fun _ => (["x"], none))
        (fun _ => .error "dbg") false "" freshRW ⟨"/anything", "/anything"⟩).status = some 500 :=
  ⟨rfl,
    (c2_no_default_amended fsNone compileEq (fun _ => (["x"], none)) (fun _ => .error "dbg")
      false "" ⟨c2cfg⟩ ⟨"/anything", "/anything"⟩ "open /srv: no such file or directory" rfl
      (fun t' ht' => absurd ht' (List.not_mem_nil t')) rfl rfl).2.1⟩
